import Mathlib

/-!
Verification of the monitoring engine of `website-status-checker`
(`src/backend/monitor.py`), via a shallow embedding in Lean 4.

Modelling conventions:
- Timestamps are opaque `Nat` values passed in explicitly (`datetime.now()`
  becomes a parameter `now`).
- Measured probe latency in milliseconds is a `Nat` (the Python code stores
  `int(duration)` of a nonnegative duration).
- An HTTP probe's outcome is abstracted by `ProbeOutcome`: either a response
  with a status code and a measured duration, a transport-level failure
  (`httpx.RequestError`), or any other unexpected exception.
- `Dict[str, Website]` (a Python 3.7+ insertion-ordered dict) is modelled as
  an association list `List (String × Website)` with unique keys: insertion
  appends at the end, deletion removes the (unique) matching key.
- Listener callables are modelled by opaque identifiers (`Nat`); whether a
  given listener's delivery fails during one broadcast is a parameter
  `fails : Nat → Bool` of the broadcast.
- Python `round(x, 2)` (banker's rounding to two decimals) is modelled
  exactly on rationals by `pyRound2`.
-/

/-- A status-change event, as built by `Website.add_status_change`:
`{"timestamp": ..., "old_status": ..., "new_status": ...}`. -/
structure StatusEvent where
  timestamp : Nat
  old_status : String
  new_status : String
deriving Repr, DecidableEq

/-- The `Website` class of `monitor.py` (the fields the engine mutates;
`ssl_expiry_date` is a never-assigned placeholder and is omitted). -/
structure Website where
  url : String
  status : String
  response_time : Nat
  last_checked : Option Nat
  is_up : Bool
  total_checks : Nat
  successful_checks : Nat
  status_history : List StatusEvent
  response_times : List Nat
  created_at : Nat
deriving Repr, DecidableEq

namespace Website

/-- Embeds `Website.__init__(url)`. -/
def init (url : String) (now : Nat) : Website :=
  { url := url
    status := "UNKNOWN"
    response_time := 0
    last_checked := none
    is_up := false
    total_checks := 0
    successful_checks := 0
    status_history := []
    response_times := []
    created_at := now }

/-- Embeds `Website.calculate_uptime`: uptime percentage as an exact rational
(`0.0` when no checks, else `successful_checks / total_checks * 100`). -/
def calculate_uptime (w : Website) : ℚ :=
  if w.total_checks = 0 then 0
  else ((w.successful_checks : ℚ) / (w.total_checks : ℚ)) * 100

/-- Embeds `Website.add_check_result(is_success, response_time)`. -/
def add_check_result (w : Website) (is_success : Bool) (response_time : Nat) :
    Website :=
  let w := { w with
    total_checks := w.total_checks + 1
    successful_checks :=
      if is_success then w.successful_checks + 1 else w.successful_checks }
  if response_time > 0 then
    let rts := w.response_times ++ [response_time]
    { w with response_times := if rts.length > 100 then rts.tail else rts }
  else w

/-- Embeds `Website.add_status_change(old_status, new_status)`. -/
def add_status_change (w : Website) (old_status new_status : String)
    (now : Nat) : Website :=
  let h := w.status_history ++
    [{ timestamp := now, old_status := old_status, new_status := new_status }]
  { w with status_history := if h.length > 50 then h.tail else h }

/-- Embeds `Website.get_average_response_time`: integer mean (`//`) of the recorded
response times, `0` if none. -/
def get_average_response_time (w : Website) : Nat :=
  if w.response_times = [] then 0
  else w.response_times.sum / w.response_times.length

end Website

/-- Python's `round` to 2 decimal places on an exact rational: nearest
multiple of 1/100, ties to the even multiple (banker's rounding). -/
def pyRound2 (q : ℚ) : ℚ :=
  let s := q * 100
  let f : ℤ := Int.floor s
  let r : ℚ := s - f
  let n : ℤ :=
    if r < 1/2 then f
    else if r > 1/2 then f + 1
    else if f % 2 = 0 then f else f + 1
  (n : ℚ) / 100

/-- The dictionary returned by `Website.to_dict` (the snapshot of one
target), field for field. -/
structure TargetSnapshot where
  url : String
  status : String
  response_time : Nat
  last_checked : Option Nat
  is_up : Bool
  uptime_percentage : ℚ
  total_checks : Nat
  avg_response_time : Nat
  status_history : List StatusEvent
  created_at : Nat
deriving Repr, DecidableEq

/-- Python `l[-10:]` and friends: the last `n` elements of a list. -/
def lastN (n : Nat) (l : List α) : List α :=
  l.drop (l.length - n)

namespace Website

/-- Embeds `Website.to_dict()`. -/
def to_dict (w : Website) : TargetSnapshot :=
  { url := w.url
    status := w.status
    response_time := w.response_time
    last_checked := w.last_checked
    is_up := w.is_up
    uptime_percentage := pyRound2 w.calculate_uptime
    total_checks := w.total_checks
    avg_response_time := w.get_average_response_time
    status_history := lastN 10 w.status_history
    created_at := w.created_at }

end Website

/-- The outcome of one HTTP probe, as distinguished by
`StatusManager.check_website`: an HTTP response (any status code) with a
measured duration in ms, a transport-level failure (`httpx.RequestError`),
or any other unexpected exception. -/
inductive ProbeOutcome where
  | response (code : Nat) (durationMs : Nat)
  | requestError
  | unexpectedError
deriving Repr, DecidableEq

/-- The `try`/`except` body of `StatusManager.check_website`: classify the
probe's outcome and record it on the target. -/
def probeStep (w : Website) (o : ProbeOutcome) (now : Nat) : Website :=
  match o with
  | .response code dur =>
      let w := { w with response_time := dur, last_checked := some now }
      if 200 ≤ code ∧ code < 400 then
        let w := { w with status := toString code ++ " OK", is_up := true }
        w.add_check_result true w.response_time
      else
        let w := { w with status := "HTTP " ++ toString code, is_up := false }
        w.add_check_result false w.response_time
  | .requestError =>
      let w := { w with
        status := "DOWN", is_up := false, response_time := 0,
        last_checked := some now }
      w.add_check_result false 0
  | .unexpectedError =>
      let w := { w with
        status := "ERROR", is_up := false, response_time := 0,
        last_checked := some now }
      w.add_check_result false 0

/-- Embeds `StatusManager.check_website(website)`, as a pure function of the
website's pre-probe state, the probe's outcome and the current time:
run the probe body, then log a status change if `status` or `is_up`
differs from the pre-probe values. -/
def checkWebsite (w : Website) (o : ProbeOutcome) (now : Nat) : Website :=
  let w1 := probeStep w o now
  if w.status ≠ w1.status ∨ w.is_up ≠ w1.is_up then
    w1.add_status_change w.status w1.status now
  else w1

/-- The `StatusManager.websites` map: a Python 3.7+ `Dict[str, Website]`
modelled as an insertion-ordered association list with unique keys. -/
abbrev Registry := List (String × Website)

/-- Embeds the membership test `url in self.websites`. -/
def regContains (m : Registry) (url : String) : Bool :=
  m.any (fun p => p.1 = url)

/-- Embeds `StatusManager.add_website(url)`: returns the updated map and the
boolean result (`True` iff the url was newly inserted). -/
def addWebsite (m : Registry) (url : String) (now : Nat) : Registry × Bool :=
  if regContains m url then (m, false)
  else (m ++ [(url, Website.init url now)], true)

/-- Embeds `StatusManager.remove_website(url)`: `del` of the matching key. -/
def removeWebsite (m : Registry) (url : String) : Registry × Bool :=
  if regContains m url then (m.filter (fun p => p.1 ≠ url), true)
  else (m, false)

/-- Embeds `StatusManager.get_all_websites()`: snapshots of all targets in the
map's (insertion) order. -/
def getAllWebsites (m : Registry) : List TargetSnapshot :=
  m.map (fun p => p.2.to_dict)

/-- A registry mutation issued through the API layer. -/
inductive RegOp where
  | add (url : String)
  | remove (url : String)
deriving Repr, DecidableEq

/-- Apply one registry operation (creation timestamps are irrelevant to the
registry claims, so added targets are stamped `0`). -/
def applyOp (m : Registry) (op : RegOp) : Registry :=
  match op with
  | .add url => (addWebsite m url 0).1
  | .remove url => (removeWebsite m url).1

/-- Replay a whole sequence of add/remove calls from a given registry. -/
def runOps (m : Registry) (ops : List RegOp) : Registry :=
  ops.foldl applyOp m

/-- Number of `add` calls in the sequence that return `True`, replayed
from registry `m`. -/
def successfulAdds (m : Registry) : List RegOp → Nat
  | [] => 0
  | op :: rest =>
      (match op with
        | .add url => if (addWebsite m url 0).2 then 1 else 0
        | .remove _ => 0) + successfulAdds (applyOp m op) rest

/-- Number of `remove` calls in the sequence that return `True`, replayed
from registry `m`. -/
def successfulRemoves (m : Registry) : List RegOp → Nat
  | [] => 0
  | op :: rest =>
      (match op with
        | .add _ => 0
        | .remove url => if (removeWebsite m url).2 then 1 else 0) +
      successfulRemoves (applyOp m op) rest

/-- Modelled from the spec: the order in which `list()` is claimed to
return the targets — urls of successful adds in order, a removed url losing
its position and a re-added url taking a fresh position at the end. -/
def specOrder (ks : List String) : List RegOp → List String
  | [] => ks
  | .add url :: rest =>
      specOrder (if url ∈ ks then ks else ks ++ [url]) rest
  | .remove url :: rest =>
      specOrder (ks.filter (fun k => k ≠ url)) rest

/-- Embeds `StatusManager.listeners`: a Python list of callables, modelled as a
list of opaque listener identifiers. -/
abbrev Listeners := List Nat

/-- Embeds `StatusManager.add_listener(listener)`: `list.append`. -/
def addListener (ls : Listeners) (l : Nat) : Listeners := ls ++ [l]

/-- Embeds `StatusManager.remove_listener(listener)`: remove the first occurrence
if present, else no-op. -/
def removeListener (ls : Listeners) (l : Nat) : Listeners :=
  if l ∈ ls then ls.erase l else ls

/-- The `for listener in self.listeners` loop of
`StatusManager.notify_listeners`: attempts delivery to every listener in
order; returns the sequence of attempted deliveries and the `to_remove`
list of listeners whose delivery raised. `fails l` tells whether listener
`l`'s delivery fails during this broadcast. -/
def notifyLoop (fails : Nat → Bool) : Listeners → Listeners × Listeners
  | [] => ([], [])
  | l :: rest =>
      let (att, rem) := notifyLoop fails rest
      (l :: att, if fails l then l :: rem else rem)

/-- The trailing removal loop of `notify_listeners`: for each listener in
`to_remove`, remove its first occurrence from the listener list if still
present. -/
def removeFailed (ls : Listeners) (to_remove : Listeners) : Listeners :=
  to_remove.foldl (fun cur l => if l ∈ cur then cur.erase l else cur) ls

/-- Embeds `StatusManager.notify_listeners()`: returns the sequence of attempted
deliveries (each receives the one snapshot computed up front) and the
listener list after pruning failed listeners. -/
def notifyListeners (ls : Listeners) (fails : Nat → Bool) :
    Listeners × Listeners :=
  ((notifyLoop fails ls).1, removeFailed ls (notifyLoop fails ls).2)

/-- Repeats `add_listener` for the same listener `n` times. -/
def subscribeN (ls : Listeners) (l : Nat) : Nat → Listeners
  | 0 => ls
  | n + 1 => addListener (subscribeN ls l n) l

section Helpers

variable (w : Website) (s : Bool) (rt : Nat) (a b : String) (t : Nat)

theorem add_check_result_total :
    (w.add_check_result s rt).total_checks = w.total_checks + 1 := by
  simp only [Website.add_check_result]
  split <;> rfl

theorem add_check_result_successful :
    (w.add_check_result s rt).successful_checks =
      if s then w.successful_checks + 1 else w.successful_checks := by
  simp only [Website.add_check_result]
  split <;> rfl

theorem add_check_result_response_times :
    (w.add_check_result s rt).response_times =
      if rt > 0 then
        (let l := w.response_times ++ [rt];
          if l.length > 100 then l.tail else l)
      else w.response_times := by
  simp only [Website.add_check_result]
  split <;> rfl

theorem add_check_result_status :
    (w.add_check_result s rt).status = w.status := by
  simp only [Website.add_check_result]
  split <;> rfl

theorem add_check_result_is_up :
    (w.add_check_result s rt).is_up = w.is_up := by
  simp only [Website.add_check_result]
  split <;> rfl

theorem add_check_result_response_time :
    (w.add_check_result s rt).response_time = w.response_time := by
  simp only [Website.add_check_result]
  split <;> rfl

theorem add_check_result_last_checked :
    (w.add_check_result s rt).last_checked = w.last_checked := by
  simp only [Website.add_check_result]
  split <;> rfl

theorem add_check_result_history :
    (w.add_check_result s rt).status_history = w.status_history := by
  simp only [Website.add_check_result]
  split <;> rfl

theorem add_status_change_history :
    (w.add_status_change a b t).status_history =
      (let h := w.status_history ++
        [{ timestamp := t, old_status := a, new_status := b }];
        if h.length > 50 then h.tail else h) := rfl

theorem add_status_change_total :
    (w.add_status_change a b t).total_checks = w.total_checks := rfl

theorem add_status_change_successful :
    (w.add_status_change a b t).successful_checks = w.successful_checks := rfl

theorem add_status_change_status :
    (w.add_status_change a b t).status = w.status := rfl

theorem add_status_change_is_up :
    (w.add_status_change a b t).is_up = w.is_up := rfl

theorem add_status_change_response_time :
    (w.add_status_change a b t).response_time = w.response_time := rfl

theorem add_status_change_response_times :
    (w.add_status_change a b t).response_times = w.response_times := rfl

theorem add_status_change_last_checked :
    (w.add_status_change a b t).last_checked = w.last_checked := rfl

end Helpers

section CheckHelpers

variable (w : Website) (o : ProbeOutcome) (code dur now : Nat)

theorem probeStep_response_success (h : 200 ≤ code ∧ code < 400) :
    probeStep w (.response code dur) now =
      ({ w with
          response_time := dur
          last_checked := some now
          status := toString code ++ " OK"
          is_up := true } : Website).add_check_result true dur := by
  simp only [probeStep]
  rw [if_pos h]

theorem probeStep_response_fail (h : ¬(200 ≤ code ∧ code < 400)) :
    probeStep w (.response code dur) now =
      ({ w with
          response_time := dur
          last_checked := some now
          status := "HTTP " ++ toString code
          is_up := false } : Website).add_check_result false dur := by
  simp only [probeStep]
  rw [if_neg h]

theorem probeStep_requestError :
    probeStep w .requestError now =
      ({ w with
          status := "DOWN"
          is_up := false
          response_time := 0
          last_checked := some now } : Website).add_check_result false 0 := rfl

theorem probeStep_unexpectedError :
    probeStep w .unexpectedError now =
      ({ w with
          status := "ERROR"
          is_up := false
          response_time := 0
          last_checked := some now } : Website).add_check_result false 0 := rfl

theorem checkWebsite_status :
    (checkWebsite w o now).status = (probeStep w o now).status := by
  unfold checkWebsite
  dsimp only
  split
  · exact add_status_change_status ..
  · rfl

theorem checkWebsite_is_up :
    (checkWebsite w o now).is_up = (probeStep w o now).is_up := by
  unfold checkWebsite
  dsimp only
  split
  · exact add_status_change_is_up ..
  · rfl

theorem checkWebsite_total :
    (checkWebsite w o now).total_checks = (probeStep w o now).total_checks := by
  unfold checkWebsite
  dsimp only
  split
  · exact add_status_change_total ..
  · rfl

theorem checkWebsite_successful :
    (checkWebsite w o now).successful_checks =
      (probeStep w o now).successful_checks := by
  unfold checkWebsite
  dsimp only
  split
  · exact add_status_change_successful ..
  · rfl

theorem checkWebsite_response_time :
    (checkWebsite w o now).response_time =
      (probeStep w o now).response_time := by
  unfold checkWebsite
  dsimp only
  split
  · exact add_status_change_response_time ..
  · rfl

theorem checkWebsite_response_times :
    (checkWebsite w o now).response_times =
      (probeStep w o now).response_times := by
  unfold checkWebsite
  dsimp only
  split
  · exact add_status_change_response_times ..
  · rfl

theorem checkWebsite_last_checked :
    (checkWebsite w o now).last_checked =
      (probeStep w o now).last_checked := by
  unfold checkWebsite
  dsimp only
  split
  · exact add_status_change_last_checked ..
  · rfl

end CheckHelpers

theorem probeStep_history (w : Website) (o : ProbeOutcome) (now : Nat) :
    (probeStep w o now).status_history = w.status_history := by
  cases o with
  | response code dur =>
      by_cases h : 200 ≤ code ∧ code < 400
      · rw [probeStep_response_success w code dur now h, add_check_result_history]
      · rw [probeStep_response_fail w code dur now h, add_check_result_history]
  | requestError => rw [probeStep_requestError, add_check_result_history]
  | unexpectedError => rw [probeStep_unexpectedError, add_check_result_history]

/-- C2: every completed probe increases `total_checks` by exactly 1, and
increases `successful_checks` by exactly 1 when the probe was classified up
(`is_up` set to `true`) and leaves it unchanged otherwise. -/
theorem probe_counters (w : Website) (o : ProbeOutcome) (now : Nat) :
    (checkWebsite w o now).total_checks = w.total_checks + 1
    ∧ (checkWebsite w o now).successful_checks =
        w.successful_checks + (if (checkWebsite w o now).is_up then 1 else 0) := by
  rw [checkWebsite_total, checkWebsite_successful, checkWebsite_is_up]
  cases o with
  | response code dur =>
      by_cases h : 200 ≤ code ∧ code < 400
      · rw [probeStep_response_success w code dur now h]
        simp [add_check_result_total, add_check_result_successful,
          add_check_result_is_up]
      · rw [probeStep_response_fail w code dur now h]
        simp [add_check_result_total, add_check_result_successful,
          add_check_result_is_up]
  | requestError =>
      rw [probeStep_requestError]
      simp [add_check_result_total, add_check_result_successful,
        add_check_result_is_up]
  | unexpectedError =>
      rw [probeStep_unexpectedError]
      simp [add_check_result_total, add_check_result_successful,
        add_check_result_is_up]

/-- C1: classification of a probe's outcome. An HTTP response with status
code in `[200,400)` yields `is_up = true`, `status = "<code> OK"`,
`response_time` the measured latency, a recorded successful check (and the
latency sampled when positive); a response with a code outside `[200,400)`
yields `is_up = false`, `status = "HTTP <code>"` and a recorded failed
check with the measured latency; a transport-level failure yields
`is_up = false`, `status = "DOWN"`, `response_time = 0` and a failed check
with 0 latency (no sample); any other unexpected failure does the same
with `status = "ERROR"`; in every case `last_checked` is updated. -/
theorem probe_outcome_classification (w : Website) (code dur now : Nat) :
    (200 ≤ code → code < 400 →
      (checkWebsite w (.response code dur) now).is_up = true
      ∧ (checkWebsite w (.response code dur) now).status =
          toString code ++ " OK"
      ∧ (checkWebsite w (.response code dur) now).response_time = dur
      ∧ (checkWebsite w (.response code dur) now).last_checked = some now
      ∧ (checkWebsite w (.response code dur) now).total_checks =
          w.total_checks + 1
      ∧ (checkWebsite w (.response code dur) now).successful_checks =
          w.successful_checks + 1
      ∧ (checkWebsite w (.response code dur) now).response_times =
          (if dur > 0 then
            (if (w.response_times ++ [dur]).length > 100
              then (w.response_times ++ [dur]).tail
              else w.response_times ++ [dur])
          else w.response_times))
    ∧ (¬ (200 ≤ code ∧ code < 400) →
      (checkWebsite w (.response code dur) now).is_up = false
      ∧ (checkWebsite w (.response code dur) now).status =
          "HTTP " ++ toString code
      ∧ (checkWebsite w (.response code dur) now).response_time = dur
      ∧ (checkWebsite w (.response code dur) now).last_checked = some now
      ∧ (checkWebsite w (.response code dur) now).total_checks =
          w.total_checks + 1
      ∧ (checkWebsite w (.response code dur) now).successful_checks =
          w.successful_checks
      ∧ (checkWebsite w (.response code dur) now).response_times =
          (if dur > 0 then
            (if (w.response_times ++ [dur]).length > 100
              then (w.response_times ++ [dur]).tail
              else w.response_times ++ [dur])
          else w.response_times))
    ∧ ((checkWebsite w .requestError now).is_up = false
      ∧ (checkWebsite w .requestError now).status = "DOWN"
      ∧ (checkWebsite w .requestError now).response_time = 0
      ∧ (checkWebsite w .requestError now).last_checked = some now
      ∧ (checkWebsite w .requestError now).total_checks = w.total_checks + 1
      ∧ (checkWebsite w .requestError now).successful_checks =
          w.successful_checks
      ∧ (checkWebsite w .requestError now).response_times = w.response_times)
    ∧ ((checkWebsite w .unexpectedError now).is_up = false
      ∧ (checkWebsite w .unexpectedError now).status = "ERROR"
      ∧ (checkWebsite w .unexpectedError now).response_time = 0
      ∧ (checkWebsite w .unexpectedError now).last_checked = some now
      ∧ (checkWebsite w .unexpectedError now).total_checks =
          w.total_checks + 1
      ∧ (checkWebsite w .unexpectedError now).successful_checks =
          w.successful_checks
      ∧ (checkWebsite w .unexpectedError now).response_times =
          w.response_times) := by
  refine ⟨fun h1 h2 => ?_, fun h => ?_, ?_, ?_⟩ <;>
    rw [checkWebsite_is_up, checkWebsite_status, checkWebsite_response_time,
      checkWebsite_last_checked, checkWebsite_total, checkWebsite_successful,
      checkWebsite_response_times]
  · rw [probeStep_response_success w code dur now ⟨h1, h2⟩]
    simp [add_check_result_is_up, add_check_result_status,
      add_check_result_response_time, add_check_result_last_checked,
      add_check_result_total, add_check_result_successful,
      add_check_result_response_times]
  · rw [probeStep_response_fail w code dur now h]
    simp [add_check_result_is_up, add_check_result_status,
      add_check_result_response_time, add_check_result_last_checked,
      add_check_result_total, add_check_result_successful,
      add_check_result_response_times]
  · rw [probeStep_requestError]
    simp [add_check_result_is_up, add_check_result_status,
      add_check_result_response_time, add_check_result_last_checked,
      add_check_result_total, add_check_result_successful,
      add_check_result_response_times]
  · rw [probeStep_unexpectedError]
    simp [add_check_result_is_up, add_check_result_status,
      add_check_result_response_time, add_check_result_last_checked,
      add_check_result_total, add_check_result_successful,
      add_check_result_response_times]

/-- Witness for C1: a 200-in-50ms probe of a fresh target is classified up
with status `"200 OK"`, and a 503-in-80ms probe is classified down with
status `"HTTP 503"`. -/
theorem probe_outcome_classification_witness :
    (checkWebsite (Website.init "http://a" 0) (.response 200 50) 1).status =
        "200 OK"
    ∧ (checkWebsite (Website.init "http://a" 0) (.response 503 80) 1).status =
        "HTTP 503" := by
  constructor
  · exact ((probe_outcome_classification (Website.init "http://a" 0)
      200 50 1).1 (by decide) (by decide)).2.1
  · exact ((probe_outcome_classification (Website.init "http://a" 0)
      503 80 1).2.1 (by decide)).2.1

theorem tail_append_singleton {α : Type} (l : List α) (x : α) (h : l ≠ []) :
    (l ++ [x]).tail = l.tail ++ [x] := by
  cases l with
  | nil => exact absurd rfl h
  | cons a t => rfl

/-- C5: a check result appends its latency to `response_times` exactly when
that latency is strictly positive; the sequence never grows beyond 100
entries, and when a 101st entry would be stored the oldest entry is evicted
first. -/
theorem response_times_capacity (w : Website) (s : Bool) (rt : Nat) :
    (w.response_times.length ≤ 100 →
      (w.add_check_result s rt).response_times.length ≤ 100)
    ∧ (rt > 0 → w.response_times.length < 100 →
      (w.add_check_result s rt).response_times = w.response_times ++ [rt])
    ∧ (rt > 0 → w.response_times.length = 100 →
      (w.add_check_result s rt).response_times =
        w.response_times.tail ++ [rt])
    ∧ (rt = 0 →
      (w.add_check_result s rt).response_times = w.response_times) := by
  rw [show (w.add_check_result s rt).response_times =
      (if rt > 0 then
        (if (w.response_times ++ [rt]).length > 100
          then (w.response_times ++ [rt]).tail
          else w.response_times ++ [rt])
      else w.response_times) from add_check_result_response_times w s rt]
  refine ⟨fun hb => ?_, fun hp hlt => ?_, fun hp heq => ?_, fun h0 => ?_⟩
  · split
    · split
      · simpa using Nat.le_of_lt_succ (by simpa using Nat.lt_succ_of_le hb)
      · next hnot => simpa using Nat.le_of_not_lt (by simpa using hnot)
    · exact hb
  · rw [if_pos hp, if_neg (by simp; omega)]
  · rw [if_pos hp, if_pos (by simp [heq]),
      tail_append_singleton _ _ (by intro hnil; rw [hnil] at heq; simp at heq)]
  · rw [if_neg (by omega)]

/-- Witness for C5: appending latency 7 to a 1-element sample list stores
`[5, 7]`; appending to a full 100-element list evicts the oldest first; a
0-latency result stores nothing. -/
theorem response_times_capacity_witness :
    (Website.add_check_result
        { Website.init "u" 0 with response_times := [5] } true 7
      ).response_times = [5, 7]
    ∧ (Website.add_check_result
        { Website.init "u" 0 with response_times := List.replicate 100 3 }
        false 7).response_times = (List.replicate 100 3).tail ++ [7]
    ∧ ((Website.init "u" 0).add_check_result false 0).response_times = [] := by
  refine ⟨?_, ?_, ?_⟩
  · exact (response_times_capacity
      ({ Website.init "u" 0 with response_times := [5] }) true 7).2.1
      (by decide) (by decide)
  · exact (response_times_capacity
      ({ Website.init "u" 0 with response_times := List.replicate 100 3 })
      false 7).2.2.1 (by decide) (by simp)
  · exact (response_times_capacity (Website.init "u" 0) false 0).2.2.2 rfl

theorem checkWebsite_def (w : Website) (o : ProbeOutcome) (now : Nat) :
    checkWebsite w o now =
      if w.status ≠ (probeStep w o now).status
          ∨ w.is_up ≠ (probeStep w o now).is_up
        then (probeStep w o now).add_status_change
          w.status (probeStep w o now).status now
        else probeStep w o now := rfl

/-- C4: `status_history` stays within 50 stored entries (oldest evicted
first at the bound); a probe appends a `{timestamp, old_status,
new_status}` entry exactly when the status string or the `is_up` flag
changed relative to their pre-probe values; the snapshot exposes only the
most recent 10 entries. -/
theorem status_history_claim (w : Website) (o : ProbeOutcome) (now : Nat) :
    (w.status_history.length ≤ 50 →
      (checkWebsite w o now).status_history.length ≤ 50)
    ∧ ((checkWebsite w o now).status = w.status
        ∧ (checkWebsite w o now).is_up = w.is_up →
      (checkWebsite w o now).status_history = w.status_history)
    ∧ ((checkWebsite w o now).status ≠ w.status
        ∨ (checkWebsite w o now).is_up ≠ w.is_up →
      (checkWebsite w o now).status_history =
        (if (w.status_history ++
            [StatusEvent.mk now w.status (checkWebsite w o now).status]).length > 50
          then (w.status_history ++
            [StatusEvent.mk now w.status (checkWebsite w o now).status]).tail
          else w.status_history ++
            [StatusEvent.mk now w.status (checkWebsite w o now).status]))
    ∧ (w.to_dict.status_history = lastN 10 w.status_history) := by
  rw [checkWebsite_def]
  by_cases hc : w.status ≠ (probeStep w o now).status
      ∨ w.is_up ≠ (probeStep w o now).is_up
  · rw [if_pos hc]
    refine ⟨fun hb => ?_, fun heq => ?_, fun _ => ?_, rfl⟩
    · rw [add_status_change_history]
      dsimp only
      rw [probeStep_history]
      split
      · simpa using Nat.le_of_lt_succ (by simpa using Nat.lt_succ_of_le hb)
      · next hnot => simpa using Nat.le_of_not_lt (by simpa using hnot)
    · rw [add_status_change_status, add_status_change_is_up] at heq
      exact absurd hc (by
        rw [not_or, not_ne_iff, not_ne_iff]
        exact ⟨heq.1.symm, heq.2.symm⟩)
    · rw [add_status_change_history]
      dsimp only
      rw [probeStep_history, add_status_change_status]
  · rw [if_neg hc]
    rw [not_or, not_ne_iff, not_ne_iff] at hc
    refine ⟨fun hb => ?_, fun _ => ?_, fun hne => ?_, rfl⟩
    · rw [probeStep_history]
      exact hb
    · exact probeStep_history w o now
    · rcases hne with h | h
      · exact absurd hc.1.symm h
      · exact absurd hc.2.symm h

/-- Witness for C4: the first probe of a fresh target (status `"UNKNOWN"`
to `"200 OK"`) appends one history entry; a repeat of the same outcome
leaves the history unchanged. -/
theorem status_history_claim_witness :
    (checkWebsite (Website.init "u" 0) (.response 200 50) 1).status_history =
      [StatusEvent.mk 1 "UNKNOWN" "200 OK"]
    ∧ (checkWebsite (checkWebsite (Website.init "u" 0) (.response 200 50) 1)
        (.response 200 60) 2).status_history =
      [StatusEvent.mk 1 "UNKNOWN" "200 OK"] := by
  constructor
  · have h := (status_history_claim (Website.init "u" 0)
      (.response 200 50) 1).2.2.1 (Or.inl (by decide))
    rw [h]
    decide
  · have h := (status_history_claim
      (checkWebsite (Website.init "u" 0) (.response 200 50) 1)
      (.response 200 60) 2).2.1 ⟨by decide, by decide⟩
    rw [h]
    decide

/-- Counterexample to C6: probing a fresh target and receiving HTTP 500 in
120 ms is classified down (`is_up = false`), yet the 120 ms latency is
stored in `response_times` — so not every entry comes from a probe
classified as successful, and a down probe does contribute an entry. -/
theorem down_probe_contributes_sample :
    (checkWebsite (Website.init "http://x" 0) (.response 500 120) 1).is_up
        = false
    ∧ (checkWebsite (Website.init "http://x" 0)
        (.response 500 120) 1).response_times = [120]
    ∧ (Website.init "http://x" 0).response_times = [] := by
  refine ⟨rfl, rfl, rfl⟩

/-- C6 (amended): every entry of `response_times` either was already
present before the probe or is the positive measured latency of a probe
that received an HTTP response — regardless of the up/down classification
of that response; probes that fail at transport level or unexpectedly
never contribute an entry. -/
theorem response_times_provenance (w : Website) (o : ProbeOutcome)
    (now : Nat) :
    (∀ x ∈ (checkWebsite w o now).response_times,
      x ∈ w.response_times ∨ ∃ code, o = .response code x ∧ 0 < x)
    ∧ (o = .requestError ∨ o = .unexpectedError →
      (checkWebsite w o now).response_times = w.response_times) := by
  rw [checkWebsite_response_times]
  cases o with
  | response code dur =>
      have hrt : (probeStep w (.response code dur) now).response_times =
          (if dur > 0 then
            (if (w.response_times ++ [dur]).length > 100
              then (w.response_times ++ [dur]).tail
              else w.response_times ++ [dur])
          else w.response_times) := by
        by_cases h : 200 ≤ code ∧ code < 400
        · rw [probeStep_response_success w code dur now h]
          simp [add_check_result_response_times]
        · rw [probeStep_response_fail w code dur now h]
          simp [add_check_result_response_times]
      rw [hrt]
      constructor
      · intro x hx
        by_cases hd : dur > 0
        · rw [if_pos hd] at hx
          have hx' : x ∈ w.response_times ++ [dur] := by
            rcases (em ((w.response_times ++ [dur]).length > 100)) with hl | hl
            · rw [if_pos hl] at hx
              exact List.mem_of_mem_tail hx
            · rw [if_neg hl] at hx
              exact hx
          rcases List.mem_append.mp hx' with h | h
          · exact Or.inl h
          · rcases List.mem_singleton.mp h with rfl
            exact Or.inr ⟨code, rfl, hd⟩
        · rw [if_neg hd] at hx
          exact Or.inl hx
      · intro h
        rcases h with h | h <;> cases h
  | requestError =>
      have hrt : (probeStep w .requestError now).response_times =
          w.response_times := by
        rw [probeStep_requestError]
        simp [add_check_result_response_times]
      rw [hrt]
      exact ⟨fun x hx => Or.inl hx, fun _ => rfl⟩
  | unexpectedError =>
      have hrt : (probeStep w .unexpectedError now).response_times =
          w.response_times := by
        rw [probeStep_unexpectedError]
        simp [add_check_result_response_times]
      rw [hrt]
      exact ⟨fun x hx => Or.inl hx, fun _ => rfl⟩

/-- Witness for the amended C6: the 120 ms entry stored after an HTTP 500
response traces back to that response, and a transport failure stores
nothing on a fresh target. -/
theorem response_times_provenance_witness :
    (∃ code, (ProbeOutcome.response 500 120 : ProbeOutcome) =
        .response code 120 ∧ 0 < 120)
    ∧ (checkWebsite (Website.init "u" 0) .requestError 1).response_times
        = [] := by
  constructor
  · have h := (response_times_provenance (Website.init "u" 0)
      (.response 500 120) 1).1 120 (by decide)
    rcases h with h | h
    · exact absurd h (by decide)
    · exact h
  · exact (response_times_provenance (Website.init "u" 0)
      .requestError 1).2 (Or.inl rfl)

/-- C7: the snapshot's `uptime_percentage` equals
`successful_checks / total_checks * 100` rounded to 2 decimal places when
`total_checks > 0`, and equals 0 when `total_checks` is 0. -/
theorem uptime_percentage_claim (w : Website) :
    (w.total_checks = 0 → w.to_dict.uptime_percentage = 0)
    ∧ (w.total_checks ≠ 0 →
      w.to_dict.uptime_percentage =
        pyRound2 (((w.successful_checks : ℚ) / (w.total_checks : ℚ)) * 100))
    := by
  constructor
  · intro h
    show pyRound2 w.calculate_uptime = 0
    rw [Website.calculate_uptime, if_pos h]
    norm_num [pyRound2]
  · intro h
    show pyRound2 w.calculate_uptime = _
    rw [Website.calculate_uptime, if_neg h]

/-- Witness for C7: a never-checked target reports uptime 0; a target with
1 success out of 3 checks reports `33.33` (= 3333/100). -/
theorem uptime_percentage_claim_witness :
    (Website.init "u" 0).to_dict.uptime_percentage = 0
    ∧ ({ Website.init "u" 0 with total_checks := 3, successful_checks := 1 }
        : Website).to_dict.uptime_percentage = 3333 / 100 := by
  constructor
  · exact (uptime_percentage_claim (Website.init "u" 0)).1 rfl
  · have h := (uptime_percentage_claim
      { Website.init "u" 0 with total_checks := 3, successful_checks := 1 }).2
      (by decide)
    rw [h]
    norm_num [pyRound2]

theorem notifyLoop_fst (fails : Nat → Bool) (ls : Listeners) :
    (notifyLoop fails ls).1 = ls := by
  induction ls with
  | nil => rfl
  | cons x t ih => simp [notifyLoop, ih]

theorem notifyLoop_snd (fails : Nat → Bool) (ls : Listeners) :
    (notifyLoop fails ls).2 = ls.filter fails := by
  induction ls with
  | nil => rfl
  | cons x t ih =>
      by_cases h : fails x
      · simp [notifyLoop, ih, List.filter_cons, h]
      · simp [notifyLoop, ih, List.filter_cons, h]

theorem count_removeFailed (rem : Listeners) :
    ∀ (ls : Listeners) (l : Nat),
      (removeFailed ls rem).count l = ls.count l - rem.count l := by
  induction rem with
  | nil => intro ls l; simp [removeFailed]
  | cons x rem ih =>
      intro ls l
      have hstep : removeFailed ls (x :: rem) =
          removeFailed (if x ∈ ls then ls.erase x else ls) rem := rfl
      rw [hstep, ih]
      by_cases hx : x ∈ ls
      · rw [if_pos hx, List.count_erase]
        rw [List.count_cons]
        omega
      · rw [if_neg hx]
        by_cases hxl : x = l
        · subst hxl
          rw [List.count_eq_zero_of_not_mem hx]
          simp
        · rw [List.count_cons, if_neg (by simpa using hxl)]
          omega

/-- C8: during one broadcast, delivery is attempted to every current
listener in order regardless of other listeners' failures (so the
broadcast always runs to completion); every listener whose delivery failed
is absent from the listener list afterwards, and listeners whose delivery
succeeded keep all their registrations. -/
theorem notify_all_claim (ls : Listeners) (fails : Nat → Bool) (l : Nat) :
    (notifyListeners ls fails).1 = ls
    ∧ (fails l = true → l ∉ (notifyListeners ls fails).2)
    ∧ (fails l = false →
        ((notifyListeners ls fails).2).count l = ls.count l) := by
  have h2 : (notifyListeners ls fails).2 =
      removeFailed ls (ls.filter fails) := by
    show removeFailed ls (notifyLoop fails ls).2 = _
    rw [notifyLoop_snd]
  refine ⟨notifyLoop_fst fails ls, fun hf => ?_, fun hf => ?_⟩
  · rw [h2]
    rw [← List.count_eq_zero (a := l)]
    rw [count_removeFailed, List.count_filter hf]
    omega
  · rw [h2, count_removeFailed]
    have : (ls.filter fails).count l = 0 := by
      rw [List.count_eq_zero]
      intro hmem
      rw [List.mem_filter] at hmem
      rw [hf] at hmem
      exact Bool.false_ne_true hmem.2
    rw [this]
    omega

/-- Witness for C8: with listeners `[1, 2, 1, 3]` and listener 1's
delivery failing, all four registrations still get a delivery attempt,
listener 1 is gone afterwards, and listener 2 keeps its registration. -/
theorem notify_all_claim_witness :
    (notifyListeners [1, 2, 1, 3] (fun x => x == 1)).1 = [1, 2, 1, 3]
    ∧ 1 ∉ (notifyListeners [1, 2, 1, 3] (fun x => x == 1)).2
    ∧ ((notifyListeners [1, 2, 1, 3] (fun x => x == 1)).2).count 2 = 1 := by
  refine ⟨(notify_all_claim [1, 2, 1, 3] (fun x => x == 1) 1).1,
    (notify_all_claim [1, 2, 1, 3] (fun x => x == 1) 1).2.1 (by decide), ?_⟩
  have h := (notify_all_claim [1, 2, 1, 3] (fun x => x == 1) 2).2.2
    (by decide)
  rw [h]
  decide

theorem subscribeN_count (ls : Listeners) (l : Nat) (n : Nat) :
    (subscribeN ls l n).count l = ls.count l + n := by
  induction n with
  | zero => rfl
  | succ n ih =>
      show ((subscribeN ls l n) ++ [l]).count l = ls.count l + (n + 1)
      rw [List.count_append, ih, List.count_singleton]
      simp [Nat.add_assoc]

theorem removeListener_count (ls : Listeners) (l : Nat) :
    (removeListener ls l).count l = ls.count l - 1 := by
  unfold removeListener
  by_cases h : l ∈ ls
  · rw [if_pos h, List.count_erase]
    simp
  · rw [if_neg h, List.count_eq_zero_of_not_mem h]

/-- C9: subscribing a listener `n` times yields `n` more occurrences in
the listener list, one broadcast attempts delivery to it once per
occurrence, and a single unsubscribe removes exactly one occurrence — so
with more than one subscription the listener still receives broadcasts
after one unsubscribe. -/
theorem subscribe_no_dedup (ls : Listeners) (l : Nat) (n : Nat)
    (fails : Nat → Bool) :
    (subscribeN ls l n).count l = ls.count l + n
    ∧ ((notifyListeners (subscribeN ls l n) fails).1).count l =
        ls.count l + n
    ∧ (removeListener (subscribeN ls l n) l).count l = ls.count l + n - 1
    ∧ (1 < n → l ∈ removeListener (subscribeN ls l n) l) := by
  refine ⟨subscribeN_count ls l n, ?_, ?_, fun hn => ?_⟩
  · rw [show (notifyListeners (subscribeN ls l n) fails).1 =
        subscribeN ls l n from notifyLoop_fst fails _]
    exact subscribeN_count ls l n
  · rw [removeListener_count, subscribeN_count]
  · rw [← List.count_pos_iff, removeListener_count, subscribeN_count]
    omega

/-- Witness for C9: subscribing listener 9 twice to an empty listener list
gives it two delivery attempts per broadcast, and it is still subscribed
after one unsubscribe. -/
theorem subscribe_no_dedup_witness :
    (subscribeN [] 9 2).count 9 = 2
    ∧ ((notifyListeners (subscribeN [] 9 2) (fun _ => false)).1).count 9 = 2
    ∧ (removeListener (subscribeN [] 9 2) 9).count 9 = 1
    ∧ 9 ∈ removeListener (subscribeN [] 9 2) 9 := by
  have h := subscribe_no_dedup [] 9 2 (fun _ => false)
  exact ⟨h.1, h.2.1, h.2.2.1, h.2.2.2 (by decide)⟩

theorem regContains_iff (m : Registry) (url : String) :
    regContains m url = true ↔ url ∈ m.map Prod.fst := by
  rw [regContains, List.any_eq_true]
  constructor
  · rintro ⟨p, hp, he⟩
    exact List.mem_map.mpr ⟨p, hp, by simpa using he⟩
  · intro h
    rcases List.mem_map.mp h with ⟨p, hp, he⟩
    exact ⟨p, hp, by simpa using he⟩

theorem map_fst_filter_key (m : Registry) (url : String) :
    (m.filter (fun p => p.1 ≠ url)).map Prod.fst =
      (m.map Prod.fst).filter (fun k => k ≠ url) := by
  induction m with
  | nil => rfl
  | cons p t ih =>
      rw [List.map_cons, List.filter_cons, List.filter_cons]
      by_cases h : p.1 = url
      · rw [if_neg (by simp [h]), if_neg (by simp [h])]
        exact ih
      · rw [if_pos (by simpa using h), if_pos (by simpa using h),
          List.map_cons, ih]

theorem applyOp_keys_nodup (m : Registry) (op : RegOp)
    (hnd : (m.map Prod.fst).Nodup) :
    ((applyOp m op).map Prod.fst).Nodup := by
  cases op with
  | add url =>
      by_cases hc : regContains m url = true
      · simpa [applyOp, addWebsite, hc] using hnd
      · have hmem : url ∉ m.map Prod.fst := fun h =>
          hc ((regContains_iff m url).mpr h)
        simp only [applyOp, addWebsite, hc, if_false, Bool.false_eq_true]
        rw [List.map_append]
        rw [List.nodup_append]
        exact ⟨hnd, List.nodup_singleton url,
          fun a ha hb => hmem (by rwa [show a = url by simpa using hb] at ha)⟩
  | remove url =>
      by_cases hc : regContains m url = true
      · simp only [applyOp, removeWebsite, hc, if_true]
        rw [map_fst_filter_key]
        exact hnd.filter _
      · simpa [applyOp, removeWebsite, hc] using hnd

theorem length_filter_remove (m : Registry) (url : String)
    (hnd : (m.map Prod.fst).Nodup) (hc : regContains m url = true) :
    (m.filter (fun p => p.1 ≠ url)).length + 1 = m.length := by
  induction m with
  | nil => simp [regContains] at hc
  | cons p t ih =>
      rw [List.map_cons, List.nodup_cons] at hnd
      rw [List.filter_cons]
      by_cases h : p.1 = url
      · rw [if_neg (by simp [h])]
        have ht : t.filter (fun q => q.1 ≠ url) = t := by
          rw [List.filter_eq_self]
          intro q hq
          simp only [ne_eq, decide_eq_true_eq]
          intro hqe
          exact hnd.1 (List.mem_map.mpr ⟨q, hq, hqe.trans h.symm⟩)
        rw [ht, List.length_cons]
      · have hct : regContains t url = true := by
          have hmem := (regContains_iff _ url).mp hc
          rw [List.map_cons] at hmem
          rcases List.mem_cons.mp hmem with h1 | h1
          · exact absurd h1.symm h
          · exact (regContains_iff t url).mpr h1
        have hh := ih hnd.2 hct
        rw [if_pos (by simpa using h), List.length_cons, List.length_cons]
        omega

theorem runOps_keys_nodup (ops : List RegOp) :
    ∀ m : Registry, (m.map Prod.fst).Nodup →
      ((runOps m ops).map Prod.fst).Nodup := by
  induction ops with
  | nil => intro m h; exact h
  | cons op rest ih =>
      intro m h
      exact ih (applyOp m op) (applyOp_keys_nodup m op h)

theorem runOps_length (ops : List RegOp) :
    ∀ m : Registry, (m.map Prod.fst).Nodup →
      (runOps m ops).length + successfulRemoves m ops =
        successfulAdds m ops + m.length := by
  induction ops with
  | nil =>
      intro m _
      simp [runOps, successfulAdds, successfulRemoves]
  | cons op rest ih =>
      intro m hnd
      have hstep : runOps m (op :: rest) = runOps (applyOp m op) rest := rfl
      have ih' := ih (applyOp m op) (applyOp_keys_nodup m op hnd)
      cases op with
      | add url =>
          by_cases hc : regContains m url = true
          · have hap : applyOp m (.add url) = m := by
              simp [applyOp, addWebsite, hc]
            rw [hstep]
            rw [hap] at ih' ⊢
            simp only [successfulAdds, successfulRemoves, addWebsite, hc,
              if_true, hap]
            simpa using ih'
          · have hap : applyOp m (.add url) =
                m ++ [(url, Website.init url 0)] := by
              simp [applyOp, addWebsite, hc]
            rw [hstep]
            rw [hap] at ih' ⊢
            simp only [successfulAdds, successfulRemoves, addWebsite, hc,
              if_false, hap]
            simp only [List.length_append, List.length_singleton] at ih'
            simp
            omega
      | remove url =>
          by_cases hc : regContains m url = true
          · have hap : applyOp m (.remove url) =
                m.filter (fun p => p.1 ≠ url) := by
              simp [applyOp, removeWebsite, hc]
            have hlen := length_filter_remove m url hnd hc
            rw [hstep]
            rw [hap] at ih' ⊢
            simp only [successfulAdds, successfulRemoves, removeWebsite, hc,
              if_true, hap]
            omega
          · have hap : applyOp m (.remove url) = m := by
              simp [applyOp, removeWebsite, hc]
            rw [hstep]
            rw [hap] at ih' ⊢
            simp only [successfulAdds, successfulRemoves, removeWebsite, hc,
              if_false, hap]
            simpa using ih'

/-- Every stored target's `url` field agrees with its key in the map
(`self.websites[url] = Website(url)` is the only insertion). -/
def keysConsistent (m : Registry) : Prop := ∀ p ∈ m, (p.2).url = p.1

theorem keysConsistent_applyOp (m : Registry) (op : RegOp)
    (h : keysConsistent m) : keysConsistent (applyOp m op) := by
  cases op with
  | add url =>
      by_cases hc : regContains m url = true
      · simpa [applyOp, addWebsite, hc] using h
      · intro p hp
        simp only [applyOp, addWebsite, hc, if_false,
          Bool.false_eq_true] at hp
        rcases List.mem_append.mp hp with h1 | h1
        · exact h p h1
        · rw [List.mem_singleton.mp h1]
          rfl
  | remove url =>
      by_cases hc : regContains m url = true
      · intro p hp
        simp only [applyOp, removeWebsite, hc, if_true] at hp
        exact h p (List.mem_filter.mp hp).1
      · simpa [applyOp, removeWebsite, hc] using h

theorem runOps_keysConsistent (ops : List RegOp) :
    ∀ m : Registry, keysConsistent m → keysConsistent (runOps m ops) := by
  induction ops with
  | nil => intro m h; exact h
  | cons op rest ih =>
      intro m h
      exact ih (applyOp m op) (keysConsistent_applyOp m op h)

theorem getAllWebsites_urls (m : Registry) (h : keysConsistent m) :
    (getAllWebsites m).map TargetSnapshot.url = m.map Prod.fst := by
  induction m with
  | nil => rfl
  | cons p t ih =>
      have hp : (p.2).url = p.1 := h p (List.mem_cons_self p t)
      rw [getAllWebsites, List.map_cons, List.map_cons, List.map_cons]
      rw [show (p.2.to_dict).url = p.2.url from rfl, hp]
      have ht := ih (fun q hq => h q (List.mem_cons_of_mem p hq))
      rw [getAllWebsites] at ht
      rw [ht]

/-- C3: replaying any sequence of add/remove calls from an empty registry,
`list()` never contains two snapshots with the same url and its length
equals the number of adds that returned true minus the number of removes
that returned true; `add` on a present url returns false and leaves the
whole registry (all target state included) unchanged, and `remove` on an
absent url returns false and leaves the registry unchanged. -/
theorem registry_trace_claim (ops : List RegOp) (m : Registry)
    (url : String) (now : Nat) :
    ((getAllWebsites (runOps [] ops)).map TargetSnapshot.url).Nodup
    ∧ (getAllWebsites (runOps [] ops)).length + successfulRemoves [] ops =
        successfulAdds [] ops
    ∧ (regContains m url = true → addWebsite m url now = (m, false))
    ∧ (regContains m url = false → removeWebsite m url = (m, false)) := by
  have hcons : keysConsistent (runOps [] ops) :=
    runOps_keysConsistent ops [] (fun p hp => absurd hp (List.not_mem_nil p))
  refine ⟨?_, ?_, fun hc => ?_, fun hc => ?_⟩
  · rw [getAllWebsites_urls _ hcons]
    exact runOps_keys_nodup ops [] List.nodup_nil
  · have hlen := runOps_length ops [] List.nodup_nil
    simp only [List.length_nil, Nat.add_zero] at hlen
    rw [getAllWebsites, List.length_map]
    omega
  · rw [addWebsite, if_pos hc]
  · rw [removeWebsite, if_neg (by simp [hc])]

/-- Witness for C3: the trace add a, add b, add a (duplicate), remove c
(absent), remove a yields the single-entry snapshot list for b; a
duplicate add and an absent remove each return false without mutating. -/
theorem registry_trace_claim_witness :
    ((getAllWebsites (runOps [] [.add "a", .add "b", .add "a",
        .remove "c", .remove "a"])).map TargetSnapshot.url).Nodup
    ∧ (getAllWebsites (runOps [] [.add "a", .add "b", .add "a",
        .remove "c", .remove "a"])).length
        + successfulRemoves [] [.add "a", .add "b", .add "a",
          .remove "c", .remove "a"]
        = successfulAdds [] [.add "a", .add "b", .add "a",
          .remove "c", .remove "a"]
    ∧ addWebsite [("a", Website.init "a" 0)] "a" 1 =
        ([("a", Website.init "a" 0)], false)
    ∧ removeWebsite [("a", Website.init "a" 0)] "b" =
        ([("a", Website.init "a" 0)], false) := by
  have h := registry_trace_claim
    [.add "a", .add "b", .add "a", .remove "c", .remove "a"]
    [("a", Website.init "a" 0)] "a" 1
  have h2 := registry_trace_claim
    [.add "a", .add "b", .add "a", .remove "c", .remove "a"]
    [("a", Website.init "a" 0)] "b" 1
  exact ⟨h.1, h.2.1, h.2.2.1 (by decide), h2.2.2.2 (by decide)⟩

theorem runOps_keys_spec (ops : List RegOp) :
    ∀ m : Registry,
      (runOps m ops).map Prod.fst = specOrder (m.map Prod.fst) ops := by
  induction ops with
  | nil => intro m; rfl
  | cons op rest ih =>
      intro m
      have hstep : runOps m (op :: rest) = runOps (applyOp m op) rest := rfl
      cases op with
      | add url =>
          by_cases hc : regContains m url = true
          · have hap : applyOp m (.add url) = m := by
              simp [applyOp, addWebsite, hc]
            have hmem : url ∈ m.map Prod.fst := (regContains_iff m url).mp hc
            rw [hstep, hap, specOrder, if_pos hmem]
            exact ih m
          · have hap : applyOp m (.add url) =
                m ++ [(url, Website.init url 0)] := by
              simp [applyOp, addWebsite, hc]
            have hmem : url ∉ m.map Prod.fst := fun h =>
              hc ((regContains_iff m url).mpr h)
            rw [hstep, hap, specOrder, if_neg hmem]
            have := ih (m ++ [(url, Website.init url 0)])
            rwa [List.map_append] at this
      | remove url =>
          by_cases hc : regContains m url = true
          · have hap : applyOp m (.remove url) =
                m.filter (fun p => p.1 ≠ url) := by
              simp [applyOp, removeWebsite, hc]
            rw [hstep, hap, specOrder]
            have := ih (m.filter (fun p => p.1 ≠ url))
            rwa [map_fst_filter_key] at this
          · have hap : applyOp m (.remove url) = m := by
              simp [applyOp, removeWebsite, hc]
            have hmem : url ∉ m.map Prod.fst := fun h =>
              hc ((regContains_iff m url).mpr h)
            have hfe : (m.map Prod.fst).filter (fun k => k ≠ url) =
                m.map Prod.fst := by
              rw [List.filter_eq_self]
              intro a ha
              simp only [ne_eq, decide_eq_true_eq]
              intro hae
              exact hmem (hae ▸ ha)
            rw [hstep, hap, specOrder, hfe]
            exact ih m

/-- C10: after any sequence of add/remove calls from an empty registry,
`list()` returns the target snapshots in insertion order of the currently
present targets: the order in which their urls were successfully added,
a removed-then-re-added url taking a fresh position at the end (this is
the order `specOrder`, written from the spec's wording, computes). -/
theorem list_insertion_order (ops : List RegOp) :
    (getAllWebsites (runOps [] ops)).map TargetSnapshot.url =
      specOrder [] ops := by
  have hcons : keysConsistent (runOps [] ops) :=
    runOps_keysConsistent ops [] (fun p hp => absurd hp (List.not_mem_nil p))
  rw [getAllWebsites_urls _ hcons]
  exact runOps_keys_spec ops []
